import Mathlib

/-!
Verification development for the BOB quote-request API.

The embedding below models the quote lifecycle and notification subsystem of
`src/routes/quoteRoutes.js` together with the Mongoose `Quote` schema of
`src/unnamed/part_001`.  Persisted documents are modelled as association lists
from field names to values, because the claims under study concern which
fields the schema-driven store actually keeps: the `Quote` schema declares
only `name`, `email`, `phone`, `projectDetails`, `products` and `status`
(plus store-assigned `_id`/timestamps, omitted here as metadata), and under
the Mongoose default strict mode any value written to an undeclared path is
silently discarded and never persisted or serialized.
-/

namespace BOB

/-- Field values a quote document can hold: strings, numbers, and the
`products` array of `(productId, quantity)` line items
(src/unnamed/part_001 lines 20-25). -/
inductive Value where
  | vStr (s : String)
  | vInt (n : Int)
  | vItems (items : List (String × Int))
deriving DecidableEq, Repr

/-- A Mongoose document body (`_doc`): an association list from field names
to values.  This is what `save` persists and what `toJSON` serializes. -/
abbrev Doc := List (String × Value)

/-- Field lookup on a document. -/
def getField : Doc → String → Option Value
  | [], _ => none
  | (k0, v) :: rest, k => if k0 = k then some v else getField rest k

/-- Remove a field from a document (used when a schema path is overwritten). -/
def removeField : Doc → String → Doc
  | [], _ => []
  | (k0, v) :: rest, k =>
    if k0 = k then removeField rest k else (k0, v) :: removeField rest k

/-- The paths declared by `quoteSchema` (src/unnamed/part_001 lines 3-34).
The schema declares no `emailStatus`, `emailError` or `adminNotes` path. -/
def quoteSchemaPaths : List String :=
  ["name", "email", "phone", "projectDetails", "products", "status"]

/-- Setting a path on a quote document.  Under the Mongoose default strict
mode a write to a path that the schema does not declare is silently dropped:
it never reaches `_doc`, so it is neither persisted nor serialized. -/
def setPath (d : Doc) (k : String) (v : Value) : Doc :=
  if k ∈ quoteSchemaPaths then (k, v) :: removeField d k else d

/-- Document construction, `new Quote(obj)`: each provided field goes through
the strict-mode set; the schema default `status: 'pending'`
(src/unnamed/part_001 lines 27-31) is applied when `status` is absent. -/
def newQuoteDoc (obj : List (String × Value)) : Doc :=
  let d := obj.foldl (fun d kv => setPath d kv.1 kv.2) []
  match getField d "status" with
  | none => setPath d "status" (Value.vStr "pending")
  | some _ => d

/-- The `status` enum of `quoteSchema` (src/unnamed/part_001 lines 27-31).
Note that `cancelled` is not a member. -/
def statusEnum : List String := ["pending", "processed", "completed"]

/-- Hexadecimal digit test, for ObjectId casting. -/
def isHexDigit (c : Char) : Bool :=
  c.isDigit || ('a' ≤ c && c ≤ 'f') || ('A' ≤ c && c ≤ 'F')

/-- A string casts to a Mongoose ObjectId iff it is 24 hexadecimal
characters.  `products.productId` has type ObjectId in the schema. -/
def isValidObjectId (s : String) : Bool :=
  s.data.length == 24 && s.data.all isHexDigit

/-- Mongoose `required: true` on a String path: the value must be present
and a non-empty string. -/
def requiredStrOk (d : Doc) (k : String) : Bool :=
  match getField d k with
  | some (Value.vStr s) => decide (s ≠ "")
  | _ => false

/-- Schema validation of the `status` path at save time: if present it must
be a string belonging to the schema enum. -/
def statusOk (d : Doc) : Bool :=
  match getField d "status" with
  | some (Value.vStr s) => decide (s ∈ statusEnum)
  | some _ => false
  | none => true

/-- Schema validation of the `products` path: each line item `productId`
must cast to an ObjectId. -/
def productsOk (d : Doc) : Bool :=
  match getField d "products" with
  | some (Value.vItems items) => items.all (fun it => isValidObjectId it.1)
  | some _ => false
  | none => true

/-- Mongoose validation run by `save()`: required string paths, the status
enum, and ObjectId casting of line items.  When this is false, `save()`
rejects and the route handlers answer 500 from their catch block. -/
def saveOk (d : Doc) : Bool :=
  requiredStrOk d "name" && requiredStrOk d "email" && requiredStrOk d "phone"
    && requiredStrOk d "projectDetails" && statusOk d && productsOk d

/-- Store-assigned quote identifiers. -/
abbrev QuoteId := String

/-- The quote collection: an association list from ids to documents. -/
abbrev Store := List (QuoteId × Doc)

/-- `Quote.findById`. -/
def findById : Store → QuoteId → Option Doc
  | [], _ => none
  | (j, d) :: rest, i => if j = i then some d else findById rest i

/-- Drop a given id from the store. -/
def removeId : Store → QuoteId → Store
  | [], _ => []
  | (j, d) :: rest, i =>
    if j = i then removeId rest i else (j, d) :: removeId rest i

/-- Persisting a document under an id (the effect of a successful `save()`
on the collection). -/
def storeSet (st : Store) (i : QuoteId) (d : Doc) : Store :=
  (i, d) :: removeId st i

/-- Outcome of one `transporter.sendMail` call: resolves with transport info
or rejects with an error message. -/
inductive AttemptResult where
  | ok (info : String)
  | err (msg : String)
deriving DecidableEq, Repr

/-- The outbound mail transport: the outcome of its n-th `sendMail` call in
a handler run. -/
structure Transport where
  outcomes : Nat → AttemptResult

/-- Loop body of `sendEmailWithRetry` (src/routes/quoteRoutes.js lines
96-117), recursing on the number of attempts still allowed.  `calls` counts
`transporter.sendMail` invocations; `Except.error` models a thrown (rejected)
error.  On each attempt: if the readiness flag is down the attempt throws
without calling the transport; a transport rejection on the final attempt
(`attempt === retries`) is rethrown, otherwise the loop backs off (pure
waiting, not modelled) and retries.  A zero-attempt loop falls through and
the async function resolves with `undefined`, modelled as `Except.ok ""`. -/
def sendLoop (tr : Transport) (ready : Bool) : Nat → Nat → Except String String × Nat
  | 0, calls => (Except.ok "", calls)
  | remaining + 1, calls =>
    if ready then
      match tr.outcomes calls with
      | AttemptResult.ok info => (Except.ok info, calls + 1)
      | AttemptResult.err msg =>
        if remaining = 0 then (Except.error msg, calls + 1)
        else sendLoop tr ready remaining (calls + 1)
    else
      if remaining = 0 then (Except.error "Email service not ready", calls)
      else sendLoop tr ready remaining calls

/-- `sendEmailWithRetry(mailOptions, retries)`: run the attempt loop starting
at the given transport call index.  Returns the resolved info or the thrown
error, together with the next transport call index. -/
def sendEmailWithRetry (tr : Transport) (ready : Bool) (retries : Nat) (calls : Nat) :
    Except String String × Nat :=
  sendLoop tr ready retries calls

/-- True when a result is a thrown (rejected) error rather than a resolved
value. -/
def isThrown : Except String String → Bool
  | Except.error _ => true
  | Except.ok _ => false

/-- Process-wide email state: whether `transporter` was initialized
(non-null), the `emailServiceReady` flag, and the transport itself
(src/routes/quoteRoutes.js lines 14-15). -/
structure EmailEnv where
  configured : Bool
  ready : Bool
  tr : Transport

/-- String trimming (the express-validator `.trim()` sanitizer), computed on
the character list. -/
def strTrim (s : String) : String :=
  ⟨((s.data.dropWhile Char.isWhitespace).reverse.dropWhile Char.isWhitespace).reverse⟩

/-- The create request body destructured by the POST handler
(src/routes/quoteRoutes.js line 238). -/
structure CreatePayload where
  name : String
  email : String
  phone : String
  projectDetails : String
  products : List (String × Int)
deriving DecidableEq, Repr

/-- The sanitizers of the POST validator chain (src/routes/quoteRoutes.js
lines 200-217): `name`, `phone` and `projectDetails` are trimmed.
`normalizeEmail` is not modelled; no claim depends on it. -/
def sanitizeCreate (p : CreatePayload) : CreatePayload :=
  ⟨strTrim p.name, p.email, strTrim p.phone, strTrim p.projectDetails, p.products⟩

/-- Abstraction of the external library check `isEmail`; the claims never
depend on its exact extension, only on a check being present. -/
def isEmailLike (s : String) : Bool := s.data.contains '@'

/-- Abstraction of the external library check `isMobilePhone`. -/
def isMobilePhoneLike (s : String) : Bool :=
  decide (s ≠ "") && s.data.all (fun c => c.isDigit || c == '+')

/-- The POST validator chain (src/routes/quoteRoutes.js lines 199-227),
applied to the sanitized body: non-empty name of at most 100 characters, an
email, a phone number, non-empty project details of at most 2000 characters,
a non-empty products array whose entries have a non-empty `productId` and an
integer quantity of at least 1.  No check consults the product catalog. -/
def validateCreate (p : CreatePayload) : Bool :=
  decide (p.name ≠ "") && decide (p.name.data.length ≤ 100)
    && isEmailLike p.email
    && decide (p.phone ≠ "") && isMobilePhoneLike p.phone
    && decide (p.projectDetails ≠ "") && decide (p.projectDetails.data.length ≤ 2000)
    && decide (p.products ≠ [])
    && p.products.all (fun it => decide (it.1 ≠ ""))
    && p.products.all (fun it => decide ((1 : Int) ≤ it.2))

/-- The document built by `new Quote({...})` in the POST handler
(src/routes/quoteRoutes.js lines 241-249).  The handler also passes
`emailStatus: 'pending'`, which the strict-mode constructor drops because
the schema declares no such path. -/
def createDoc (p : CreatePayload) : Doc :=
  newQuoteDoc
    [("name", Value.vStr p.name), ("email", Value.vStr p.email),
     ("phone", Value.vStr p.phone), ("projectDetails", Value.vStr p.projectDetails),
     ("products", Value.vItems p.products),
     ("status", Value.vStr "pending"), ("emailStatus", Value.vStr "pending")]

/-- The `savedQuote` object as the handler sees it: the document body `_doc`
plus the plain JavaScript own properties `emailStatus` and `emailError` that
direct assignment to undeclared paths creates.  Own properties live only on
the in-memory wrapper: `save()` does not persist them and `toJSON` does not
serialize them. -/
structure SavedQuote where
  doc : Doc
  emailStatus : Option String
  emailError : Option String
deriving DecidableEq, Repr

/-- Responses of the POST handler: 400 with validation errors, 201 with the
saved quote, a message and an optional warning, or 500. -/
inductive CreateResult where
  | badRequest
  | created (data : SavedQuote) (message : String) (warning : Bool)
  | serverError
deriving DecidableEq, Repr

/-- Extract the document of a 201 response, if any. -/
def createdDoc? : CreateResult → Option Doc
  | CreateResult.created saved _ _ => some saved.doc
  | _ => none

/-- The catch block of the email section of the POST handler
(src/routes/quoteRoutes.js lines 277-290): mark the in-memory quote failed,
record the error message, save (a no-op on `_doc`), and answer 201 with a
warning. -/
def emailFailBranch (st1 : Store) (i : QuoteId) (d : Doc) (e : String) (c : Nat) :
    CreateResult × Store × Nat :=
  (CreateResult.created ⟨d, some "failed", some e⟩
     "Quote submitted but email notification failed" true,
   storeSet st1 i d, c)

/-- The email section of the POST handler after the first `save()`
(src/routes/quoteRoutes.js lines 253-301): when the transporter is
configured and ready, send the customer email then the admin email through
`sendEmailWithRetry`; a thrown delivery error is caught and reconciled as
`failed`, success as `sent`; otherwise sending is skipped entirely and the
quote is marked `skipped`.  The third component counts transport calls. -/
def createAfterSave (env : EmailEnv) (st1 : Store) (i : QuoteId) (d : Doc) :
    CreateResult × Store × Nat :=
  if env.configured && env.ready then
    match sendEmailWithRetry env.tr env.ready 3 0 with
    | (Except.error e, c1) => emailFailBranch st1 i d e c1
    | (Except.ok _, c1) =>
      match sendEmailWithRetry env.tr env.ready 3 c1 with
      | (Except.error e, c2) => emailFailBranch st1 i d e c2
      | (Except.ok _, c2) =>
        (CreateResult.created ⟨d, some "sent", none⟩
           "Quote request submitted successfully" false,
         storeSet st1 i d, c2)
  else
    (CreateResult.created ⟨d, some "skipped", none⟩
       "Quote request submitted successfully" false,
     storeSet st1 i d, 0)

/-- The POST / handler (src/routes/quoteRoutes.js lines 197-312): validate,
construct the quote, save it (schema validation may reject, answering 500
with nothing persisted), then run the email section.  `i` is the id the
store assigns at insertion. -/
def createQuoteHandler (env : EmailEnv) (st : Store) (i : QuoteId) (p0 : CreatePayload) :
    CreateResult × Store × Nat :=
  if !validateCreate (sanitizeCreate p0) then (CreateResult.badRequest, st, 0)
  else if !saveOk (createDoc (sanitizeCreate p0)) then (CreateResult.serverError, st, 0)
  else
    createAfterSave env (storeSet st i (createDoc (sanitizeCreate p0))) i
      (createDoc (sanitizeCreate p0))

/-- Responses of the PUT /:id/status handler: 400, 404, 500, or 200 with the
updated quote and a message. -/
inductive UpdateResult where
  | badRequest
  | notFound
  | serverError
  | updated (data : Doc) (message : String)
deriving DecidableEq, Repr

/-- The route-level status validator (src/routes/quoteRoutes.js lines
395-400): `isIn(['pending', 'processed', 'completed', 'cancelled'])`.  This
is a value-set check only; it does not look at the current status. -/
def updateStatusValidator (s : String) : Bool :=
  decide (s ∈ ["pending", "processed", "completed", "cancelled"])

/-- `quote.status = status` (src/routes/quoteRoutes.js line 420). -/
def setStatus (q : Doc) (s : String) : Doc :=
  setPath q "status" (Value.vStr s)

/-- `if (adminNotes) quote.adminNotes = adminNotes` (src/routes/quoteRoutes.js
line 421).  The validator trims the notes; `adminNotes` is not a schema
path, so under strict mode the assignment never reaches `_doc`. -/
def applyAdminNotes (d : Doc) : Option String → Doc
  | some notes =>
    if decide (strTrim notes ≠ "") then setPath d "adminNotes" (Value.vStr (strTrim notes)) else d
  | none => d

/-- Transport calls made by the status-update email section
(src/routes/quoteRoutes.js lines 426-455): one `sendEmailWithRetry` run when
the transporter is configured and ready, whose outcome is caught and only
logged. -/
def statusEmailCalls (env : EmailEnv) : Nat :=
  if env.configured && env.ready then (sendEmailWithRetry env.tr env.ready 3 0).2 else 0

/-- The PUT /:id/status handler (src/routes/quoteRoutes.js lines 391-471):
validate the requested status value, load the quote (404 when absent), set
the status and optional notes, save (schema validation may reject, answering
500 with the store unchanged), then attempt the status-update email, whose
failure is caught and logged without touching the quote or the response. -/
def updateStatusHandler (env : EmailEnv) (st : Store) (i : QuoteId)
    (newStatus : String) (adminNotes : Option String) : UpdateResult × Store × Nat :=
  if !updateStatusValidator newStatus then (UpdateResult.badRequest, st, 0)
  else
    match findById st i with
    | none => (UpdateResult.notFound, st, 0)
    | some q =>
      let q2 := applyAdminNotes (setStatus q newStatus) adminNotes
      if !saveOk q2 then (UpdateResult.serverError, st, 0)
      else
        (UpdateResult.updated q2 "Quote status updated successfully",
         storeSet st i q2, statusEmailCalls env)

/-- Responses of the GET /:id handler (src/routes/quoteRoutes.js lines
360-384). -/
inductive GetResult where
  | notFound
  | found (data : Doc)
deriving DecidableEq, Repr

/-- The GET /:id handler: look the quote up and return its serialized
document. -/
def getQuoteHandler (st : Store) (i : QuoteId) : GetResult :=
  match findById st i with
  | none => GetResult.notFound
  | some q => GetResult.found q

/-! Concrete fixtures used by counterexamples and witnesses. -/

/-- A transport whose every attempt succeeds. -/
def trAllOk : Transport := ⟨fun _ => AttemptResult.ok "250 OK"⟩

/-- A transport whose every attempt rejects. -/
def trFail : Transport := ⟨fun _ => AttemptResult.err "boom"⟩

/-- A transport that rejects twice and then succeeds: the customer email
goes through on the final retry attempt, the admin email on its first. -/
def trThirdTry : Transport :=
  ⟨fun n => if n < 2 then AttemptResult.err "boom" else AttemptResult.ok "250 OK"⟩

/-- Email never configured. -/
def envNone : EmailEnv := ⟨false, false, trAllOk⟩

/-- Email configured, ready, all sends succeed. -/
def envReadyOk : EmailEnv := ⟨true, true, trAllOk⟩

/-- Email configured, ready, all sends reject. -/
def envReadyFail : EmailEnv := ⟨true, true, trFail⟩

/-- Email configured but the readiness flag is down at send time. -/
def envNotReady : EmailEnv := ⟨true, false, trAllOk⟩

/-- Email configured, ready, success arrives on the final retry attempt. -/
def envThirdTry : EmailEnv := ⟨true, true, trThirdTry⟩

/-- A valid create payload whose line item carries a well-formed ObjectId. -/
def payload1 : CreatePayload :=
  ⟨"Ada Obi", "ada@example.com", "08012345678", "Boundary wall blocks",
   [("aaaaaaaaaaaaaaaaaaaaaaaa", 2)]⟩

/-- The document the POST handler builds and persists for `payload1`. -/
def createdDoc1 : Doc := createDoc (sanitizeCreate payload1)

/-- A store holding that freshly created quote under id q1. -/
def storeC : Store := [("q1", createdDoc1)]

/-- The same quote after an admin moved it to the terminal status. -/
def docCompleted1 : Doc := setStatus createdDoc1 "completed"

/-- A store holding the completed quote. -/
def storeT : Store := [("q1", docCompleted1)]

/-- A catalog that does not contain the product id referenced by
`payload1`. -/
def catalog1 : List String := ["bbbbbbbbbbbbbbbbbbbbbbbb"]

/-- The stored quote after a status update to processed. -/
def docProcessed1 : Doc := setStatus createdDoc1 "processed"

/-! Lemmas about documents and the store. -/

theorem getField_removeField_ne (d : Doc) (k0 k : String) (h : k ≠ k0) :
    getField (removeField d k0) k = getField d k := by
  induction d with
  | nil => rfl
  | cons hd tl ih =>
    obtain ⟨j, v⟩ := hd
    by_cases hj : j = k0
    · subst hj
      have hjk : ¬ j = k := fun hh => h (hh.symm ▸ rfl)
      simp [removeField, getField, hjk, ih]
    · simp only [removeField, if_neg hj, getField]
      by_cases hk : j = k
      · simp [hk]
      · simp [hk, ih]

theorem getField_setPath_ne (d : Doc) (k0 k : String) (v : Value) (h : k ≠ k0) :
    getField (setPath d k0 v) k = getField d k := by
  unfold setPath
  by_cases hmem : k0 ∈ quoteSchemaPaths
  · rw [if_pos hmem]
    have hk : ¬ k0 = k := fun hh => h hh.symm
    simp only [getField, if_neg hk]
    exact getField_removeField_ne d k0 k h
  · rw [if_neg hmem]

theorem getField_setStatus_self (q : Doc) (s : String) :
    getField (setStatus q s) "status" = some (Value.vStr s) := rfl

theorem getField_setStatus_ne (q : Doc) (s : String) (k : String) (h : k ≠ "status") :
    getField (setStatus q s) k = getField q k :=
  getField_setPath_ne q "status" k (Value.vStr s) h

theorem setPath_adminNotes (d : Doc) (v : Value) : setPath d "adminNotes" v = d := rfl

theorem applyAdminNotes_eq (d : Doc) (notes : Option String) :
    applyAdminNotes d notes = d := by
  cases notes with
  | none => rfl
  | some n => simp [applyAdminNotes, setPath_adminNotes]

theorem requiredStrOk_setStatus (q : Doc) (s : String) (k : String) (h : k ≠ "status") :
    requiredStrOk (setStatus q s) k = requiredStrOk q k := by
  unfold requiredStrOk
  rw [getField_setStatus_ne q s k h]

theorem statusOk_setStatus (q : Doc) (s : String) :
    statusOk (setStatus q s) = decide (s ∈ statusEnum) := rfl

theorem productsOk_setStatus (q : Doc) (s : String) :
    productsOk (setStatus q s) = productsOk q := by
  unfold productsOk
  rw [getField_setStatus_ne q s "products" (by decide)]

theorem saveOk_setStatus (q : Doc) (s : String) (hq : saveOk q = true)
    (hs : s ∈ statusEnum) : saveOk (setStatus q s) = true := by
  unfold saveOk at hq ⊢
  rw [requiredStrOk_setStatus q s "name" (by decide),
      requiredStrOk_setStatus q s "email" (by decide),
      requiredStrOk_setStatus q s "phone" (by decide),
      requiredStrOk_setStatus q s "projectDetails" (by decide),
      statusOk_setStatus, productsOk_setStatus]
  simp only [Bool.and_eq_true, decide_eq_true_eq] at hq ⊢
  exact ⟨⟨⟨⟨⟨hq.1.1.1.1.1, hq.1.1.1.1.2⟩, hq.1.1.1.2⟩, hq.1.1.2⟩, hs⟩, hq.2⟩

theorem enum_of_saveOk (q : Doc) (s : String) (hq : saveOk q = true)
    (hst : getField q "status" = some (Value.vStr s)) : s ∈ statusEnum := by
  unfold saveOk at hq
  simp only [Bool.and_eq_true] at hq
  have h := hq.1.2
  unfold statusOk at h
  rw [hst] at h
  exact of_decide_eq_true h

theorem validator_of_enum (s : String) (hs : s ∈ statusEnum) :
    updateStatusValidator s = true := by
  unfold statusEnum at hs
  simp only [List.mem_cons, List.mem_singleton, List.not_mem_nil, or_false] at hs
  rcases hs with h | h | h <;> subst h <;> decide

theorem findById_removeId_ne (st : Store) (i j : QuoteId) (h : j ≠ i) :
    findById (removeId st i) j = findById st j := by
  induction st with
  | nil => rfl
  | cons hd tl ih =>
    obtain ⟨k, d⟩ := hd
    by_cases hk : k = i
    · subst hk
      have hkj : ¬ k = j := fun hh => h (hh.symm ▸ rfl)
      simp [removeId, findById, hkj, ih]
    · simp only [removeId, if_neg hk, findById]
      by_cases hj : k = j
      · simp [hj]
      · simp [hj, ih]

theorem findById_storeSet (st : Store) (i j : QuoteId) (d : Doc) :
    findById (storeSet st i d) j = if i = j then some d else findById st j := by
  unfold storeSet
  simp only [findById]
  by_cases h : i = j
  · simp [h]
  · have hji : j ≠ i := fun hh => h hh.symm
    simp [h, findById_removeId_ne st i j hji]

/-! Lemmas running the handlers symbolically. -/

theorem updateStatus_run (env : EmailEnv) (st : Store) (i : QuoteId) (q : Doc)
    (s : String) (notes : Option String)
    (hq : findById st i = some q) (hv : updateStatusValidator s = true)
    (hsv : saveOk (setStatus q s) = true) :
    updateStatusHandler env st i s notes =
      (UpdateResult.updated (setStatus q s) "Quote status updated successfully",
       storeSet st i (setStatus q s), statusEmailCalls env) := by
  unfold updateStatusHandler
  rw [hv, hq]
  simp only [Bool.not_true, Bool.false_eq_true, if_false, applyAdminNotes_eq, hsv]

theorem updateStatus_cancelled_500 (env : EmailEnv) (st : Store) (i : QuoteId)
    (q : Doc) (notes : Option String) (hq : findById st i = some q) :
    updateStatusHandler env st i "cancelled" notes =
      (UpdateResult.serverError, st, 0) := by
  unfold updateStatusHandler
  rw [hq]
  have hsv : saveOk (applyAdminNotes (setStatus q "cancelled") notes) = false := by
    rw [applyAdminNotes_eq]
    unfold saveOk
    rw [statusOk_setStatus]
    simp [statusEnum]
  simp only [hsv, updateStatusValidator]
  simp

theorem createAfterSave_run (env : EmailEnv) (st1 : Store) (i : QuoteId) (d : Doc) :
    ∃ es ee m w c,
      createAfterSave env st1 i d =
        (CreateResult.created ⟨d, es, ee⟩ m w, storeSet st1 i d, c) ∧
      (es = some "sent" ∨ es = some "failed" ∨ es = some "skipped") := by
  unfold createAfterSave
  by_cases h : (env.configured && env.ready) = true
  · rw [if_pos h]
    rcases h1 : sendEmailWithRetry env.tr env.ready 3 0 with ⟨r1, c1⟩
    cases r1 with
    | error e =>
      exact ⟨some "failed", some e, "Quote submitted but email notification failed",
        true, c1, rfl, by simp⟩
    | ok info =>
      dsimp only
      rcases h2 : sendEmailWithRetry env.tr env.ready 3 c1 with ⟨r2, c2⟩
      cases r2 with
      | error e =>
        exact ⟨some "failed", some e, "Quote submitted but email notification failed",
          true, c2, rfl, by simp⟩
      | ok info2 =>
        exact ⟨some "sent", none, "Quote request submitted successfully",
          false, c2, rfl, by simp⟩
  · rw [if_neg h]
    exact ⟨some "skipped", none, "Quote request submitted successfully",
      false, 0, rfl, by simp⟩

theorem createQuote_run (env : EmailEnv) (st : Store) (i : QuoteId) (p : CreatePayload)
    (hv : validateCreate (sanitizeCreate p) = true)
    (hs : saveOk (createDoc (sanitizeCreate p)) = true) :
    ∃ es ee m w c,
      createQuoteHandler env st i p =
        (CreateResult.created ⟨createDoc (sanitizeCreate p), es, ee⟩ m w,
         storeSet (storeSet st i (createDoc (sanitizeCreate p))) i
           (createDoc (sanitizeCreate p)), c) ∧
      (es = some "sent" ∨ es = some "failed" ∨ es = some "skipped") := by
  unfold createQuoteHandler
  rw [hv, hs]
  simp only [Bool.not_true, Bool.false_eq_true, if_false]
  exact createAfterSave_run env _ i _

theorem getField_createDoc_emailStatus (p : CreatePayload) :
    getField (createDoc p) "emailStatus" = none := rfl

theorem getField_createDoc_emailError (p : CreatePayload) :
    getField (createDoc p) "emailError" = none := rfl

theorem getField_createDoc_status (p : CreatePayload) :
    getField (createDoc p) "status" = some (Value.vStr "pending") := rfl

/-! Claim theorems. -/

/-- Claim C1, counterexample.  The claim says that a pair
(currentStatus, newStatus) outside the permitted transition graph is
rejected with an invalid-transition error and leaves the stored status
unchanged, completed being terminal.  On a stored quote with the terminal
status completed, requesting the non-edge target pending instead succeeds
with a 200 response and the persisted status becomes pending: the handler
has no transition check at all, and no invalid-transition error exists in
the code. -/
theorem updateStatus_terminal_not_enforced_cex :
    updateStatusHandler envNone storeT "q1" "pending" none =
      (UpdateResult.updated (setStatus docCompleted1 "pending")
         "Quote status updated successfully",
       [("q1", setStatus docCompleted1 "pending")], 0) ∧
    getField docCompleted1 "status" = some (Value.vStr "completed") ∧
    getField (setStatus docCompleted1 "pending") "status" =
      some (Value.vStr "pending") ∧
    ¬ findById (updateStatusHandler envNone storeT "q1" "pending" none).2.1 "q1" =
        some docCompleted1 := by decide

/-- Claim C1 (amended): UpdateQuoteStatus performs no transition-graph
check.  For every stored quote, any requested status in the schema enum
{pending, processed, completed} is applied unconditionally, whatever the
current status (including from the terminal status completed); a request
for cancelled passes the route validator but fails the schema enum at save,
so it answers 500 with the store unchanged.  No invalid-transition error
exists. -/
theorem updateStatus_no_transition_graph (env : EmailEnv) (st : Store)
    (i : QuoteId) (q : Doc) (s : String) (notes : Option String)
    (hq : findById st i = some q) (hqOk : saveOk q = true) :
    (s ∈ statusEnum →
      updateStatusHandler env st i s notes =
        (UpdateResult.updated (setStatus q s) "Quote status updated successfully",
         storeSet st i (setStatus q s), statusEmailCalls env)) ∧
    updateStatusHandler env st i "cancelled" notes =
      (UpdateResult.serverError, st, 0) := by
  constructor
  · intro hs
    exact updateStatus_run env st i q s notes hq (validator_of_enum s hs)
      (saveOk_setStatus q s hqOk hs)
  · exact updateStatus_cancelled_500 env st i q notes hq

/-- Witness for the amended C1 theorem at a concrete store and status. -/
theorem updateStatus_no_transition_graph_witness :
    updateStatusHandler envNone storeC "q1" "processed" none =
      (UpdateResult.updated (setStatus createdDoc1 "processed")
         "Quote status updated successfully",
       storeSet storeC "q1" (setStatus createdDoc1 "processed"),
       statusEmailCalls envNone) ∧
    updateStatusHandler envNone storeC "q1" "cancelled" none =
      (UpdateResult.serverError, storeC, 0) :=
  ⟨(updateStatus_no_transition_graph envNone storeC "q1" createdDoc1 "processed"
      none (by decide) (by decide)).1 (by decide),
   (updateStatus_no_transition_graph envNone storeC "q1" createdDoc1 "processed"
      none (by decide) (by decide)).2⟩

/-- Claim C2, code-bug evaluation.  On a valid payload with a working
transport, the create handler answers 201 with status pending as claimed,
but the quote document it persists and serializes carries no emailStatus
field at all: the schema declares no such path, so the strict-mode store
drops every emailStatus write, contradicting the claim that the field is
never absent from the returned or persisted quote. -/
theorem createQuote_emailStatus_absent_eval :
    (createQuoteHandler envReadyOk [] "q1" payload1).1 =
      CreateResult.created ⟨createdDoc1, some "sent", none⟩
        "Quote request submitted successfully" false ∧
    getField createdDoc1 "status" = some (Value.vStr "pending") ∧
    getField createdDoc1 "emailStatus" = none ∧
    findById (createQuoteHandler envReadyOk [] "q1" payload1).2.1 "q1" =
      some createdDoc1 := by decide

/-- Claim C3, code-bug evaluation.  The handler reconciles delivery
outcomes exactly as described on the in-memory quote object: a transport
failing all three attempts marks it failed with the error recorded after 3
transport calls, an unready transport marks it skipped with 0 transport
calls and creation still succeeds, and success on the final retry attempt
marks it sent.  But the persisted quote document never carries emailStatus
or emailError: the schema declares neither path, so the delivery outcome
named by the claim is dropped at save. -/
theorem createQuote_email_outcome_eval :
    (createQuoteHandler envReadyFail [] "q1" payload1).1 =
      CreateResult.created ⟨createdDoc1, some "failed", some "boom"⟩
        "Quote submitted but email notification failed" true ∧
    (createQuoteHandler envReadyFail [] "q1" payload1).2.2 = 3 ∧
    getField createdDoc1 "emailStatus" = none ∧
    getField createdDoc1 "emailError" = none ∧
    (createQuoteHandler envNotReady [] "q1" payload1).1 =
      CreateResult.created ⟨createdDoc1, some "skipped", none⟩
        "Quote request submitted successfully" false ∧
    (createQuoteHandler envNotReady [] "q1" payload1).2.2 = 0 ∧
    (createQuoteHandler envThirdTry [] "q1" payload1).1 =
      CreateResult.created ⟨createdDoc1, some "sent", none⟩
        "Quote request submitted successfully" false ∧
    (createQuoteHandler envThirdTry [] "q1" payload1).2.2 = 4 := by decide

/-- Claim C4, counterexample.  The claim says the sender never raises past
its own boundary and returns a failure outcome on exhaustion.  On a
transport whose three attempts all reject, `sendEmailWithRetry` exits
through the thrown-error channel with the last error, not through a
returned value: it rethrows on the final attempt. -/
theorem sendEmailWithRetry_throws_cex :
    isThrown (sendEmailWithRetry trFail true 3 0).1 = true ∧
    (sendEmailWithRetry trFail true 3 0).1 = Except.error "boom" ∧
    (sendEmailWithRetry trFail true 3 0).2 = 3 := ⟨rfl, rfl, rfl⟩

/-- Claim C4 (amended): on exhaustion of its three attempts
`sendEmailWithRetry` throws the last error to its caller rather than
returning a failure outcome; it is the route handlers that catch the
thrown error, so the HTTP caller still receives a result and the committed
persistence work is not unwound (shown here for the status-update
handler, which answers 200 despite the throw). -/
theorem sendEmailWithRetry_throws_last_error (tr : Transport) (e0 e1 e2 : String)
    (h0 : tr.outcomes 0 = AttemptResult.err e0)
    (h1 : tr.outcomes 1 = AttemptResult.err e1)
    (h2 : tr.outcomes 2 = AttemptResult.err e2) :
    sendEmailWithRetry tr true 3 0 = (Except.error e2, 3) ∧
    (∀ (st : Store) (i : QuoteId) (q : Doc), findById st i = some q →
      saveOk q = true →
      updateStatusHandler ⟨true, true, tr⟩ st i "processed" none =
        (UpdateResult.updated (setStatus q "processed")
           "Quote status updated successfully",
         storeSet st i (setStatus q "processed"), 3)) := by
  have hsend : sendEmailWithRetry tr true 3 0 = (Except.error e2, 3) := by
    simp [sendEmailWithRetry, sendLoop, h0, h1, h2]
  refine ⟨hsend, ?_⟩
  intro st i q hfd hok
  have hrun := updateStatus_run ⟨true, true, tr⟩ st i q "processed" none hfd
    (by decide) (saveOk_setStatus q "processed" hok (by decide))
  rw [hrun]
  have hcalls : statusEmailCalls ⟨true, true, tr⟩ = 3 := by
    simp [statusEmailCalls, hsend]
  rw [hcalls]

/-- Witness for the amended C4 theorem on the all-failing transport. -/
theorem sendEmailWithRetry_throws_last_error_witness :
    sendEmailWithRetry trFail true 3 0 = (Except.error "boom", 3) ∧
    updateStatusHandler ⟨true, true, trFail⟩ storeC "q1" "processed" none =
      (UpdateResult.updated (setStatus createdDoc1 "processed")
         "Quote status updated successfully",
       storeSet storeC "q1" (setStatus createdDoc1 "processed"), 3) :=
  ⟨(sendEmailWithRetry_throws_last_error trFail "boom" "boom" "boom"
      rfl rfl rfl).1,
   (sendEmailWithRetry_throws_last_error trFail "boom" "boom" "boom"
      rfl rfl rfl).2 storeC "q1" createdDoc1 (by decide) (by decide)⟩

/-- Claim C5, counterexample.  The claim says the response is independent
of the notification outcome for both operations.  For createQuote, the same
valid payload produces different 201 bodies depending on the transport: a
plain success message when delivery succeeds, and a warning body when
delivery fails, because the handler awaits delivery before responding. -/
theorem createQuote_response_varies_cex :
    (createQuoteHandler envReadyOk [] "q1" payload1).1 =
      CreateResult.created ⟨createdDoc1, some "sent", none⟩
        "Quote request submitted successfully" false ∧
    (createQuoteHandler envReadyFail [] "q1" payload1).1 =
      CreateResult.created ⟨createdDoc1, some "failed", some "boom"⟩
        "Quote submitted but email notification failed" true ∧
    (createQuoteHandler envReadyOk [] "q1" payload1).1 ≠
      (createQuoteHandler envReadyFail [] "q1" payload1).1 := by decide

/-- Claim C5 (amended): delivery is awaited inside both handlers before the
HTTP response, not detached from it.  The status-update response and the
resulting store are fully independent of the transport outcomes, and quote
creation answers 201 whenever persistence succeeded whatever the transport
does; but the createQuote response body is not independent of the
notification outcome: its message and warning vary with delivery. -/
theorem notification_synchrony_and_independence :
    (∀ (conf ready : Bool) (tr1 tr2 : Transport) (st : Store) (i : QuoteId)
       (s : String) (notes : Option String),
      (updateStatusHandler ⟨conf, ready, tr1⟩ st i s notes).1 =
        (updateStatusHandler ⟨conf, ready, tr2⟩ st i s notes).1 ∧
      (updateStatusHandler ⟨conf, ready, tr1⟩ st i s notes).2.1 =
        (updateStatusHandler ⟨conf, ready, tr2⟩ st i s notes).2.1) ∧
    (∀ (env : EmailEnv) (st : Store) (i : QuoteId) (p : CreatePayload),
      validateCreate (sanitizeCreate p) = true →
      saveOk (createDoc (sanitizeCreate p)) = true →
      createdDoc? (createQuoteHandler env st i p).1 =
        some (createDoc (sanitizeCreate p))) ∧
    (createQuoteHandler envReadyOk [] "q1" payload1).1 ≠
      (createQuoteHandler envReadyFail [] "q1" payload1).1 := by
  refine ⟨?_, ?_, by decide⟩
  · intro conf ready tr1 tr2 st i s notes
    unfold updateStatusHandler
    cases hv : updateStatusValidator s with
    | false => exact ⟨rfl, rfl⟩
    | true =>
      simp only [Bool.not_true, Bool.false_eq_true, if_false]
      cases hfd : findById st i with
      | none => exact ⟨rfl, rfl⟩
      | some q =>
        dsimp only
        cases hsv : saveOk (applyAdminNotes (setStatus q s) notes) with
        | false => exact ⟨rfl, rfl⟩
        | true => simp
  · intro env st i p hv hs
    obtain ⟨es, ee, m, w, c, heq, -⟩ := createQuote_run env st i p hv hs
    have h1 : (createQuoteHandler env st i p).1 =
        CreateResult.created ⟨createDoc (sanitizeCreate p), es, ee⟩ m w := by
      rw [heq]
    rw [h1]
    rfl

/-- Witness for the amended C5 theorem at concrete transports and a
concrete payload. -/
theorem notification_synchrony_and_independence_witness :
    (updateStatusHandler ⟨true, true, trAllOk⟩ storeC "q1" "processed" none).1 =
      (updateStatusHandler ⟨true, true, trFail⟩ storeC "q1" "processed" none).1 ∧
    createdDoc? (createQuoteHandler envNone [] "q1" payload1).1 =
      some (createDoc (sanitizeCreate payload1)) :=
  ⟨(notification_synchrony_and_independence.1 true true trAllOk trFail storeC
      "q1" "processed" none).1,
   notification_synchrony_and_independence.2.1 envNone [] "q1" payload1
     (by decide) (by decide)⟩

/-- Claim C6, counterexample.  The claim says a failed status-update email
is recorded on the quote via emailStatus and emailError.  With a transport
failing all three attempts, the status update succeeds with a 200 response,
yet the updated and persisted quote carries no emailStatus or emailError
field: the handler only logs the caught error and touches neither the
document nor the response. -/
theorem updateStatus_failure_not_recorded_cex :
    updateStatusHandler envReadyFail storeC "q1" "processed" none =
      (UpdateResult.updated docProcessed1 "Quote status updated successfully",
       [("q1", docProcessed1)], 3) ∧
    getField docProcessed1 "emailStatus" = none ∧
    getField docProcessed1 "emailError" = none := by decide

/-- Claim C6 (amended): on a status-changed event a send failure is only
logged; nothing is recorded on the quote (no emailStatus or emailError is
set or persisted), and the status-update operation still reports success
with the committed status change, whatever the transport does. -/
theorem updateStatus_email_failure_only_logged (env : EmailEnv) (st : Store)
    (i : QuoteId) (q : Doc) (s : String)
    (hq : findById st i = some q) (hs : s ∈ statusEnum) (hqOk : saveOk q = true)
    (he1 : getField q "emailStatus" = none) (he2 : getField q "emailError" = none) :
    updateStatusHandler env st i s none =
      (UpdateResult.updated (setStatus q s) "Quote status updated successfully",
       storeSet st i (setStatus q s), statusEmailCalls env) ∧
    getField (setStatus q s) "emailStatus" = none ∧
    getField (setStatus q s) "emailError" = none := by
  refine ⟨updateStatus_run env st i q s none hq (validator_of_enum s hs)
    (saveOk_setStatus q s hqOk hs), ?_, ?_⟩
  · rw [getField_setStatus_ne q s "emailStatus" (by decide)]; exact he1
  · rw [getField_setStatus_ne q s "emailError" (by decide)]; exact he2

/-- Witness for the amended C6 theorem on the all-failing transport. -/
theorem updateStatus_email_failure_only_logged_witness :
    updateStatusHandler envReadyFail storeC "q1" "processed" none =
      (UpdateResult.updated (setStatus createdDoc1 "processed")
         "Quote status updated successfully",
       storeSet storeC "q1" (setStatus createdDoc1 "processed"),
       statusEmailCalls envReadyFail) ∧
    getField (setStatus createdDoc1 "processed") "emailStatus" = none ∧
    getField (setStatus createdDoc1 "processed") "emailError" = none :=
  updateStatus_email_failure_only_logged envReadyFail storeC "q1" createdDoc1
    "processed" (by decide) (by decide) (by decide) (by decide) (by decide)

/-- Claim C7, counterexample.  The claim says createQuote fails with a
product-not-found error, persisting nothing, whenever a referenced product
id does not resolve in the catalog.  With a catalog that does not contain
the referenced id, the same create request nevertheless answers 201 and
persists the quote: the handler never consults any catalog. -/
theorem createQuote_unknown_product_persisted_cex :
    catalog1.contains "aaaaaaaaaaaaaaaaaaaaaaaa" = false ∧
    (createQuoteHandler envReadyOk [] "q1" payload1).1 =
      CreateResult.created ⟨createdDoc1, some "sent", none⟩
        "Quote request submitted successfully" false ∧
    findById (createQuoteHandler envReadyOk [] "q1" payload1).2.1 "q1" =
      some createdDoc1 := by decide

/-- Claim C7 (amended): the create validators check only the shape of line
items (non-empty list, non-empty productId, integer quantity of at least 1)
and never consult the catalog: for any catalog, a valid payload referencing
a product id absent from that catalog is still created and persisted; no
product-not-found error exists. -/
theorem createQuote_ignores_catalog (catalog : List String) (env : EmailEnv)
    (st : Store) (i : QuoteId) (p : CreatePayload)
    (hv : validateCreate (sanitizeCreate p) = true)
    (hs : saveOk (createDoc (sanitizeCreate p)) = true)
    (_hmiss : ∃ it, it ∈ (sanitizeCreate p).products ∧ it.1 ∉ catalog) :
    createdDoc? (createQuoteHandler env st i p).1 =
      some (createDoc (sanitizeCreate p)) ∧
    findById (createQuoteHandler env st i p).2.1 i =
      some (createDoc (sanitizeCreate p)) := by
  obtain ⟨es, ee, m, w, c, heq, -⟩ := createQuote_run env st i p hv hs
  constructor
  · have h1 : (createQuoteHandler env st i p).1 =
        CreateResult.created ⟨createDoc (sanitizeCreate p), es, ee⟩ m w := by
      rw [heq]
    rw [h1]
    rfl
  · have h2 : (createQuoteHandler env st i p).2.1 =
        storeSet (storeSet st i (createDoc (sanitizeCreate p))) i
          (createDoc (sanitizeCreate p)) := by
      rw [heq]
    rw [h2, findById_storeSet]
    simp

/-- Witness for the amended C7 theorem with a catalog missing the
referenced product id. -/
theorem createQuote_ignores_catalog_witness :
    createdDoc? (createQuoteHandler envReadyOk [] "q1" payload1).1 =
      some (createDoc (sanitizeCreate payload1)) ∧
    findById (createQuoteHandler envReadyOk [] "q1" payload1).2.1 "q1" =
      some (createDoc (sanitizeCreate payload1)) :=
  createQuote_ignores_catalog catalog1 envReadyOk [] "q1" payload1
    (by decide) (by decide)
    ⟨("aaaaaaaaaaaaaaaaaaaaaaaa", 2), by decide, by decide⟩

/-- Claim C8: updateStatus is idempotent on a self-loop.  When the stored
status already equals the requested status, the update succeeds with a 200
response, the resulting document maps every field exactly as before, and a
second identical call succeeds again with the same no-op result; other
store entries are untouched. -/
theorem updateStatus_selfloop_idempotent (env : EmailEnv) (st : Store)
    (i : QuoteId) (q : Doc) (s : String)
    (hq : findById st i = some q)
    (hst : getField q "status" = some (Value.vStr s))
    (hqOk : saveOk q = true) :
    updateStatusHandler env st i s none =
      (UpdateResult.updated (setStatus q s) "Quote status updated successfully",
       storeSet st i (setStatus q s), statusEmailCalls env) ∧
    (∀ k, getField (setStatus q s) k = getField q k) ∧
    updateStatusHandler env (storeSet st i (setStatus q s)) i s none =
      (UpdateResult.updated (setStatus (setStatus q s) s)
         "Quote status updated successfully",
       storeSet (storeSet st i (setStatus q s)) i (setStatus (setStatus q s) s),
       statusEmailCalls env) ∧
    (∀ k, getField (setStatus (setStatus q s) s) k = getField q k) ∧
    (∀ j, j ≠ i → findById (storeSet st i (setStatus q s)) j = findById st j) := by
  have hs := enum_of_saveOk q s hqOk hst
  have hv := validator_of_enum s hs
  have hOk1 := saveOk_setStatus q s hqOk hs
  have hB : ∀ k, getField (setStatus q s) k = getField q k := by
    intro k
    by_cases hk : k = "status"
    · subst hk; rw [getField_setStatus_self, hst]
    · exact getField_setStatus_ne q s k hk
  refine ⟨updateStatus_run env st i q s none hq hv hOk1, hB, ?_, ?_, ?_⟩
  · have hq2 : findById (storeSet st i (setStatus q s)) i = some (setStatus q s) := by
      rw [findById_storeSet]; simp
    exact updateStatus_run env (storeSet st i (setStatus q s)) i (setStatus q s)
      s none hq2 hv (saveOk_setStatus (setStatus q s) s hOk1 hs)
  · intro k
    by_cases hk : k = "status"
    · subst hk; rw [getField_setStatus_self, hst]
    · rw [getField_setStatus_ne (setStatus q s) s k hk]; exact hB k
  · intro j hj
    rw [findById_storeSet]
    rw [if_neg (fun hh => hj hh.symm)]

/-- Witness for C8: a self-loop on a pending quote succeeds twice. -/
theorem updateStatus_selfloop_idempotent_witness :
    updateStatusHandler envReadyOk storeC "q1" "pending" none =
      (UpdateResult.updated (setStatus createdDoc1 "pending")
         "Quote status updated successfully",
       storeSet storeC "q1" (setStatus createdDoc1 "pending"),
       statusEmailCalls envReadyOk) ∧
    updateStatusHandler envReadyOk (storeSet storeC "q1" (setStatus createdDoc1 "pending"))
        "q1" "pending" none =
      (UpdateResult.updated (setStatus (setStatus createdDoc1 "pending") "pending")
         "Quote status updated successfully",
       storeSet (storeSet storeC "q1" (setStatus createdDoc1 "pending")) "q1"
         (setStatus (setStatus createdDoc1 "pending") "pending"),
       statusEmailCalls envReadyOk) :=
  ⟨(updateStatus_selfloop_idempotent envReadyOk storeC "q1" createdDoc1 "pending"
      (by decide) (by decide) (by decide)).1,
   (updateStatus_selfloop_idempotent envReadyOk storeC "q1" createdDoc1 "pending"
      (by decide) (by decide) (by decide)).2.2.1⟩

/-- Claim C9: every document the store accepts at save has a status inside
the schema enum {pending, processed, completed}, and although the route
validator accepts cancelled, an update to cancelled fails schema validation
at save: the caller gets a 500 response and the store is unchanged. -/
theorem status_schema_enum_and_cancelled_rejected :
    (∀ (d : Doc) (s : String), saveOk d = true →
      getField d "status" = some (Value.vStr s) → s ∈ statusEnum) ∧
    (∀ (env : EmailEnv) (st : Store) (i : QuoteId) (q : Doc)
       (notes : Option String), findById st i = some q →
      updateStatusHandler env st i "cancelled" notes =
        (UpdateResult.serverError, st, 0)) :=
  ⟨fun d s h1 h2 => enum_of_saveOk d s h1 h2,
   fun env st i q notes hq => updateStatus_cancelled_500 env st i q notes hq⟩

/-- Witness for C9 on a concrete stored quote. -/
theorem status_schema_enum_and_cancelled_rejected_witness :
    "pending" ∈ statusEnum ∧
    updateStatusHandler envNone storeC "q1" "cancelled" none =
      (UpdateResult.serverError, storeC, 0) :=
  ⟨status_schema_enum_and_cancelled_rejected.1 createdDoc1 "pending"
     (by decide) (by decide),
   status_schema_enum_and_cancelled_rejected.2 envNone storeC "q1" createdDoc1
     none (by decide)⟩

/-- Claim C10: the schema declares no emailStatus or emailError path, so the
values the create handler assigns are dropped at save: for every valid
creation, the persisted document carries neither field, and a subsequent
GetQuote read returns that same document, making the delivery outcome
unobservable from persisted state. -/
theorem emailStatus_dropped_at_save (env : EmailEnv) (st : Store) (i : QuoteId)
    (p : CreatePayload)
    (hv : validateCreate (sanitizeCreate p) = true)
    (hs : saveOk (createDoc (sanitizeCreate p)) = true) :
    createdDoc? (createQuoteHandler env st i p).1 =
      some (createDoc (sanitizeCreate p)) ∧
    getField (createDoc (sanitizeCreate p)) "emailStatus" = none ∧
    getField (createDoc (sanitizeCreate p)) "emailError" = none ∧
    getQuoteHandler (createQuoteHandler env st i p).2.1 i =
      GetResult.found (createDoc (sanitizeCreate p)) := by
  obtain ⟨es, ee, m, w, c, heq, -⟩ := createQuote_run env st i p hv hs
  refine ⟨?_, getField_createDoc_emailStatus _, getField_createDoc_emailError _, ?_⟩
  · have h1 : (createQuoteHandler env st i p).1 =
        CreateResult.created ⟨createDoc (sanitizeCreate p), es, ee⟩ m w := by
      rw [heq]
    rw [h1]
    rfl
  · have h2 : (createQuoteHandler env st i p).2.1 =
        storeSet (storeSet st i (createDoc (sanitizeCreate p))) i
          (createDoc (sanitizeCreate p)) := by
      rw [heq]
    rw [h2]
    unfold getQuoteHandler
    rw [findById_storeSet]
    simp

/-- Witness for C10 at a concrete payload and environment. -/
theorem emailStatus_dropped_at_save_witness :
    createdDoc? (createQuoteHandler envReadyOk [] "q1" payload1).1 =
      some (createDoc (sanitizeCreate payload1)) ∧
    getField (createDoc (sanitizeCreate payload1)) "emailStatus" = none ∧
    getField (createDoc (sanitizeCreate payload1)) "emailError" = none ∧
    getQuoteHandler (createQuoteHandler envReadyOk [] "q1" payload1).2.1 "q1" =
      GetResult.found (createDoc (sanitizeCreate payload1)) :=
  emailStatus_dropped_at_save envReadyOk [] "q1" payload1 (by decide) (by decide)

end BOB
